import Mathlib

/-!
Verification of the iprobe library (src/src/lib.rs): runtime probing of
IPv4, IPv6 and IPv4-mapped-IPv6 socket capabilities, memoized in a
process-wide once cell.

The operating system's socket layer is modelled by an oracle (structure
Os) that decides the outcome of each system call the probe makes; calls
are identified by the index of the socket they concern (0 = the IPv4
check socket, 1 = the trial-A socket, 2 = the trial-B socket).  Besides
the capability record, probe_in returns the ordered trace of system
calls it performed, so that claims about which calls happen, with which
arguments and in which order, can be stated and proved.
-/

namespace Iprobe

/-- Address families used by the probe (rustix AddressFamily). -/
inductive AddressFamily where
  | INET
  | INET6
deriving DecidableEq

/-- Socket types used by the probe (rustix SocketType). -/
inductive SocketType where
  | STREAM
deriving DecidableEq

/-- IP protocols used by the probe (rustix ipproto). -/
inductive IpProto where
  | TCP
deriving DecidableEq

/-- An IPv6 address as its eight 16-bit segments (std::net::Ipv6Addr). -/
structure Ipv6Addr where
  s0 : Nat
  s1 : Nat
  s2 : Nat
  s3 : Nat
  s4 : Nat
  s5 : Nat
  s6 : Nat
  s7 : Nat
deriving DecidableEq

/-- Ipv6Addr::new. -/
def Ipv6Addr.new (a b c d e f g h : Nat) : Ipv6Addr :=
  ⟨a, b, c, d, e, f, g, h⟩

/-- Ipv6Addr::LOCALHOST, the address ::1. -/
def Ipv6Addr.LOCALHOST : Ipv6Addr :=
  Ipv6Addr.new 0 0 0 0 0 0 0 1

/-- std::net::SocketAddrV6: address, port, flowinfo, scope_id. -/
structure SocketAddrV6 where
  ip : Ipv6Addr
  port : Nat
  flowinfo : Nat
  scope_id : Nat
deriving DecidableEq

/-- SocketAddrV6::new(ip, port, flowinfo, scope_id). -/
def SocketAddrV6.new (ip : Ipv6Addr) (port flowinfo scope_id : Nat) : SocketAddrV6 :=
  ⟨ip, port, flowinfo, scope_id⟩

/-- The capability record (struct Probe, lib.rs lines 36-40). -/
structure Probe where
  ipv4 : Bool
  ipv6 : Bool
  ipv4_mapped_ipv6 : Bool
deriving DecidableEq

namespace ProbeImpl

/-- Probe::ipv4 accessor (lib.rs line 45). -/
def ipv4 (p : Probe) : Bool :=
  p.ipv4

/-- Probe::ipv6 accessor (lib.rs line 51). -/
def ipv6 (p : Probe) : Bool :=
  p.ipv6

/-- Probe::ipv4_mapped_ipv6 accessor (lib.rs line 58). -/
def ipv4_mapped_ipv6 (p : Probe) : Bool :=
  p.ipv4_mapped_ipv6

end ProbeImpl

/-- One observable system call of the probing procedure.  Socket-using
calls carry the index of the socket they act on; socketCall and bindCall
also record the outcome the oracle gave. -/
inductive Ev where
  | wsaStartup
  | wsaCleanup
  | socketCall (idx : Nat) (fam : AddressFamily) (ty : SocketType) (proto : Option IpProto) (ok : Bool)
  | setV6Only (idx : Nat) (v : Bool) (ok : Bool)
  | bindCall (idx : Nat) (addr : SocketAddrV6) (ok : Bool)
  | closeFd (idx : Nat)
deriving DecidableEq

/-- The socket index an event uses (set option or bind), if any. -/
def Ev.usesFd : Ev → Option Nat
  | .setV6Only k _ _ => some k
  | .bindCall k _ _ => some k
  | _ => none

/-- Whether an event is the network-subsystem startup call. -/
def Ev.isStartup : Ev → Bool
  | .wsaStartup => true
  | _ => false

/-- Whether an event is the network-subsystem cleanup call. -/
def Ev.isCleanup : Ev → Bool
  | .wsaCleanup => true
  | _ => false

/-- The oracle deciding each system call's outcome.  Calls are keyed by
the socket index so that every call made in one probe run has its own
independent outcome. -/
structure Os where
  socketOk : Nat → AddressFamily → SocketType → Option IpProto → Bool
  setOk : Nat → Bool → Bool
  bindOk : Nat → SocketAddrV6 → Bool

/-- V6_PROBES (lib.rs lines 13-16): one row (is_ipv6, v6_only) per trial. -/
def V6_PROBES : List (Bool × Bool) := [(true, true), (false, false)]

/-- The bind address computed inside a trial (lib.rs lines 108-118):
the IPv6 loopback ::1 for the IPv6 trial, the IPv4-mapped loopback
::ffff:127.0.0.1 for the mapped trial; port, flowinfo and scope_id 0. -/
def mkBindAddr (is_ipv6 : Bool) : SocketAddrV6 :=
  if is_ipv6 then
    SocketAddrV6.new Ipv6Addr.LOCALHOST 0 0 0
  else
    SocketAddrV6.new (Ipv6Addr.new 0 0 0 0 0 0xffff 0x7f00 0x01) 0 0 0

/-- The body of the V6_PROBES loop (lib.rs lines 100-131) for one row:
create an INET6 stream socket; on success set IPV6_V6ONLY (result
discarded), bind to the trial's address, set the trial's flag when the
bind succeeded, and drop the socket at the end of the iteration. -/
def trialRun (os : Os) (idx : Nat) (row : Bool × Bool) (caps : Probe) : Probe × List Ev :=
  let (is_ipv6, v6_only) := row
  let sockOk := os.socketOk idx AddressFamily.INET6 SocketType.STREAM (some IpProto.TCP)
  if sockOk then
    let setRes := os.setOk idx v6_only
    let addr := mkBindAddr is_ipv6
    let bindRes := os.bindOk idx addr
    let caps :=
      if bindRes then
        if is_ipv6 then { caps with ipv6 := true }
        else { caps with ipv4_mapped_ipv6 := true }
      else caps
    (caps,
     [Ev.socketCall idx AddressFamily.INET6 SocketType.STREAM (some IpProto.TCP) true,
      Ev.setV6Only idx v6_only setRes,
      Ev.bindCall idx addr bindRes,
      Ev.closeFd idx])
  else
    (caps, [Ev.socketCall idx AddressFamily.INET6 SocketType.STREAM (some IpProto.TCP) false])

/-- The V6_PROBES loop itself, threading the capability record through
the rows and numbering the trial sockets from the given index. -/
def runTrials (os : Os) : List (Bool × Bool) → Nat → Probe → Probe × List Ev
  | [], _, caps => (caps, [])
  | row :: rest, idx, caps =>
    let r1 := trialRun os idx row caps
    let r2 := runTrials os rest (idx + 1) r1.1
    (r2.1, r1.2 ++ r2.2)

/-- probe_in (lib.rs lines 78-137): start from the all-false record,
bracket with wsa startup/cleanup when on windows, run the IPv4
socket-creation check (socket index 0, dropped at the end of its
block), then the two IPv6 trials (socket indices 1 and 2). -/
def probe_in (windows : Bool) (os : Os) : Probe × List Ev :=
  let caps : Probe := ⟨false, false, false⟩
  let sock0 := os.socketOk 0 AddressFamily.INET SocketType.STREAM (some IpProto.TCP)
  let caps := if sock0 then { caps with ipv4 := true } else caps
  let ipv4Evs : List Ev :=
    Ev.socketCall 0 AddressFamily.INET SocketType.STREAM (some IpProto.TCP) sock0 ::
      (if sock0 then [Ev.closeFd 0] else [])
  let r := runTrials os V6_PROBES 1 caps
  let evs :=
    (if windows then [Ev.wsaStartup] else []) ++ ipv4Evs ++ r.2 ++
      (if windows then [Ev.wsaCleanup] else [])
  (r.1, evs)

/-- OnceLock::get_or_init modelled on an Option-valued single-assignment
cell: an initialized cell answers its stored value untouched; an empty
cell runs the initializer once and publishes the result. -/
def getOrInit (cell : Option Probe) (f : Unit → Probe) : Probe × Option Probe :=
  match cell with
  | some v => (v, some v)
  | none =>
    let v := f ()
    (v, some v)

/-- probe (lib.rs lines 73-75): read the INIT cell, running probe_in to
fill it on first use. -/
def probe (windows : Bool) (os : Os) (st : Option Probe) : Probe × Option Probe :=
  getOrInit st (fun _ => (probe_in windows os).1)

/-- The free function ipv4 (lib.rs lines 19-21). -/
def ipv4 (windows : Bool) (os : Os) (st : Option Probe) : Bool × Option Probe :=
  let r := probe windows os st
  (r.1.ipv4, r.2)

/-- The free function ipv6 (lib.rs lines 24-26). -/
def ipv6 (windows : Bool) (os : Os) (st : Option Probe) : Bool × Option Probe :=
  let r := probe windows os st
  (r.1.ipv6, r.2)

/-- The free function ipv4_mapped_ipv6 (lib.rs lines 30-32). -/
def ipv4_mapped_ipv6 (windows : Bool) (os : Os) (st : Option Probe) : Bool × Option Probe :=
  let r := probe windows os st
  (r.1.ipv4_mapped_ipv6, r.2)

/-- One public API call; every kind goes through probe. -/
inductive Call where
  | probe
  | ipv4
  | ipv6
  | ipv4_mapped_ipv6
deriving DecidableEq

/-- Run a sequence of public API calls against the process cell,
collecting the record each call observed and counting how many times
the initializer probe_in actually ran. -/
def runCalls (windows : Bool) (os : Os) : List Call → Option Probe → List Probe × Option Probe × Nat
  | [], st => ([], st, 0)
  | _ :: cs, st =>
    let n : Nat := match st with | none => 1 | some _ => 0
    let r := probe windows os st
    let rest := runCalls windows os cs r.2
    (r.1 :: rest.1, rest.2.1, n + rest.2.2)

/-- Oracle on which every system call succeeds. -/
def osAll : Os :=
  ⟨fun _ _ _ _ => true, fun _ _ => true, fun _ _ => true⟩

/-- Oracle on which every system call fails. -/
def osAllFail : Os :=
  ⟨fun _ _ _ _ => false, fun _ _ => false, fun _ _ => false⟩

/-- Oracle on which only the IPV6_V6ONLY option calls fail. -/
def osSetFail : Os :=
  ⟨fun _ _ _ _ => true, fun _ _ => false, fun _ _ => true⟩

/-- Oracle on which trial A's socket creation fails and all else succeeds. -/
def osTrialAFail : Os :=
  ⟨fun k _ _ _ => !(k == 1), fun _ _ => true, fun _ _ => true⟩

/-- Oracle on which trial B's bind fails and all else succeeds. -/
def osTrialBBindFail : Os :=
  ⟨fun _ _ _ _ => true, fun _ _ => true, fun k _ => !(k == 2)⟩

/-- The trace segment one V6_PROBES row contributes: the socket call,
then (on creation success only) the option call, the bind and the drop. -/
def trialSeg (os : Os) (idx : Nat) (is_ipv6 v6_only : Bool) : List Ev :=
  if os.socketOk idx AddressFamily.INET6 SocketType.STREAM (some IpProto.TCP) then
    [Ev.socketCall idx AddressFamily.INET6 SocketType.STREAM (some IpProto.TCP) true,
     Ev.setV6Only idx v6_only (os.setOk idx v6_only),
     Ev.bindCall idx (mkBindAddr is_ipv6) (os.bindOk idx (mkBindAddr is_ipv6)),
     Ev.closeFd idx]
  else
    [Ev.socketCall idx AddressFamily.INET6 SocketType.STREAM (some IpProto.TCP) false]

/-- The capability record probe_in computes, as a function of the
oracle alone: the IPv4 flag is the IPv4 socket-creation outcome, and
each IPv6 flag is the conjunction of its trial's socket-creation and
bind outcomes. -/
theorem probe_in_caps (w : Bool) (os : Os) :
    (probe_in w os).1 =
      ⟨os.socketOk 0 AddressFamily.INET SocketType.STREAM (some IpProto.TCP),
       os.socketOk 1 AddressFamily.INET6 SocketType.STREAM (some IpProto.TCP) &&
         os.bindOk 1 (mkBindAddr true),
       os.socketOk 2 AddressFamily.INET6 SocketType.STREAM (some IpProto.TCP) &&
         os.bindOk 2 (mkBindAddr false)⟩ := by
  cases h0 : os.socketOk 0 AddressFamily.INET SocketType.STREAM (some IpProto.TCP) <;>
  cases h1 : os.socketOk 1 AddressFamily.INET6 SocketType.STREAM (some IpProto.TCP) <;>
  cases h2 : os.socketOk 2 AddressFamily.INET6 SocketType.STREAM (some IpProto.TCP) <;>
  cases hb1 : os.bindOk 1 (mkBindAddr true) <;>
  cases hb2 : os.bindOk 2 (mkBindAddr false) <;>
    simp [probe_in, runTrials, trialRun, V6_PROBES, h0, h1, h2, hb1, hb2]

/-- The trace probe_in emits: the optional startup call, the IPv4
check's socket call and drop, the two trial segments, the optional
cleanup call. -/
theorem probe_in_trace (w : Bool) (os : Os) :
    (probe_in w os).2 =
      (if w then [Ev.wsaStartup] else []) ++
      (Ev.socketCall 0 AddressFamily.INET SocketType.STREAM (some IpProto.TCP)
         (os.socketOk 0 AddressFamily.INET SocketType.STREAM (some IpProto.TCP)) ::
        (if os.socketOk 0 AddressFamily.INET SocketType.STREAM (some IpProto.TCP) then
          [Ev.closeFd 0] else [])) ++
      (trialSeg os 1 true true ++ trialSeg os 2 false false) ++
      (if w then [Ev.wsaCleanup] else []) := by
  cases h1 : os.socketOk 1 AddressFamily.INET6 SocketType.STREAM (some IpProto.TCP) <;>
  cases h2 : os.socketOk 2 AddressFamily.INET6 SocketType.STREAM (some IpProto.TCP) <;>
    simp [probe_in, runTrials, trialRun, trialSeg, V6_PROBES, h1, h2]

/-- Reading the cell when it is already filled. -/
theorem probe_some (w : Bool) (os : Os) (p : Probe) :
    probe w os (some p) = (p, some p) := rfl

/-- Reading the cell on first use runs probe_in and publishes its record. -/
theorem probe_none (w : Bool) (os : Os) :
    probe w os none = ((probe_in w os).1, some (probe_in w os).1) := rfl

/-- After the cell is filled with p, every further call answers p, the
cell keeps p, and the initializer never runs again. -/
theorem runCalls_some (w : Bool) (os : Os) (p : Probe) (cs : List Call) :
    runCalls w os cs (some p) = (List.replicate cs.length p, some p, 0) := by
  induction cs with
  | nil => rfl
  | cons c cs ih => simp [runCalls, probe, getOrInit, ih, List.replicate]

/-- From the empty cell, every call in the sequence observes the
probe_in record. -/
theorem runCalls_none_answers (w : Bool) (os : Os) (cs : List Call) :
    (runCalls w os cs none).1 = List.replicate cs.length ((probe_in w os).1) := by
  cases cs with
  | nil => rfl
  | cons c cs => simp [runCalls, probe, getOrInit, runCalls_some, List.replicate]

/-- From the empty cell, the initializer runs at most once over any
call sequence. -/
theorem runCalls_none_count (w : Bool) (os : Os) (cs : List Call) :
    (runCalls w os cs none).2.2 ≤ 1 := by
  cases cs with
  | nil => simp [runCalls]
  | cons c cs => simp [runCalls, probe, getOrInit, runCalls_some]

/-- From the empty cell, the cell only ever holds nothing or the
probe_in record. -/
theorem runCalls_none_cell (w : Bool) (os : Os) (cs : List Call) :
    (runCalls w os cs none).2.1 = none ∨
      (runCalls w os cs none).2.1 = some ((probe_in w os).1) := by
  cases cs with
  | nil => exact Or.inl rfl
  | cons c cs => exact Or.inr (by simp [runCalls, probe, getOrInit, runCalls_some])

/-- C1: the probing procedure runs exactly two IPv6 trials over
IPv6-family TCP stream sockets.  Trial A (socket 1) sets IPV6_V6ONLY
to true and binds the IPv6 loopback ::1 with port, flowinfo and
scope_id 0; the ipv6 flag is true exactly when that bind succeeds.
Trial B (socket 2) sets IPV6_V6ONLY to false and binds the IPv4-mapped
loopback ::ffff:127.0.0.1 with port, flowinfo and scope_id 0; the
ipv4_mapped_ipv6 flag is true exactly when that bind succeeds.  When a
trial's IPv6 socket creation fails the trial's trace is the lone
socket call: no option call and no bind, and the flag stays false. -/
theorem probe_two_trials_spec (w : Bool) (os : Os) :
    (probe_in w os).1.ipv6 =
      (os.socketOk 1 AddressFamily.INET6 SocketType.STREAM (some IpProto.TCP) &&
        os.bindOk 1 (SocketAddrV6.new (Ipv6Addr.new 0 0 0 0 0 0 0 1) 0 0 0)) ∧
    (probe_in w os).1.ipv4_mapped_ipv6 =
      (os.socketOk 2 AddressFamily.INET6 SocketType.STREAM (some IpProto.TCP) &&
        os.bindOk 2 (SocketAddrV6.new (Ipv6Addr.new 0 0 0 0 0 0xffff 0x7f00 0x01) 0 0 0)) ∧
    (probe_in w os).2 =
      (if w then [Ev.wsaStartup] else []) ++
      (Ev.socketCall 0 AddressFamily.INET SocketType.STREAM (some IpProto.TCP)
         (os.socketOk 0 AddressFamily.INET SocketType.STREAM (some IpProto.TCP)) ::
        (if os.socketOk 0 AddressFamily.INET SocketType.STREAM (some IpProto.TCP) then
          [Ev.closeFd 0] else [])) ++
      ((if os.socketOk 1 AddressFamily.INET6 SocketType.STREAM (some IpProto.TCP) then
          [Ev.socketCall 1 AddressFamily.INET6 SocketType.STREAM (some IpProto.TCP) true,
           Ev.setV6Only 1 true (os.setOk 1 true),
           Ev.bindCall 1 (SocketAddrV6.new (Ipv6Addr.new 0 0 0 0 0 0 0 1) 0 0 0)
             (os.bindOk 1 (SocketAddrV6.new (Ipv6Addr.new 0 0 0 0 0 0 0 1) 0 0 0)),
           Ev.closeFd 1]
        else
          [Ev.socketCall 1 AddressFamily.INET6 SocketType.STREAM (some IpProto.TCP) false]) ++
       (if os.socketOk 2 AddressFamily.INET6 SocketType.STREAM (some IpProto.TCP) then
          [Ev.socketCall 2 AddressFamily.INET6 SocketType.STREAM (some IpProto.TCP) true,
           Ev.setV6Only 2 false (os.setOk 2 false),
           Ev.bindCall 2 (SocketAddrV6.new (Ipv6Addr.new 0 0 0 0 0 0xffff 0x7f00 0x01) 0 0 0)
             (os.bindOk 2 (SocketAddrV6.new (Ipv6Addr.new 0 0 0 0 0 0xffff 0x7f00 0x01) 0 0 0)),
           Ev.closeFd 2]
        else
          [Ev.socketCall 2 AddressFamily.INET6 SocketType.STREAM (some IpProto.TCP) false])) ++
      (if w then [Ev.wsaCleanup] else []) := by
  refine ⟨?_, ?_, ?_⟩
  · rw [probe_in_caps]
    simp [mkBindAddr, Ipv6Addr.LOCALHOST]
  · rw [probe_in_caps]
    simp [mkBindAddr]
  · rw [probe_in_trace]
    simp [trialSeg, mkBindAddr, Ipv6Addr.LOCALHOST]

/-- C2: each public query returns exactly the corresponding field of
the record probe returns in the same state, and probe on the empty
cell runs the probing procedure and publishes its record. -/
theorem queries_defined_by_probe (w : Bool) (os : Os) (st : Option Probe) :
    ipv4 w os st = ((probe w os st).1.ipv4, (probe w os st).2) ∧
    ipv6 w os st = ((probe w os st).1.ipv6, (probe w os st).2) ∧
    ipv4_mapped_ipv6 w os st = ((probe w os st).1.ipv4_mapped_ipv6, (probe w os st).2) ∧
    probe w os none = ((probe_in w os).1, some ((probe_in w os).1)) := by
  exact ⟨rfl, rfl, rfl, rfl⟩

/-- C3: over any call sequence starting from the fresh process state,
every call observes the very record probe_in computes (so all calls
after the first return a record identical to the first call's), and
probe_in executes at most once. -/
theorem probe_idempotent_once (w : Bool) (os : Os) (cs : List Call) :
    (runCalls w os cs none).1 = List.replicate cs.length ((probe_in w os).1) ∧
    (runCalls w os cs none).2.2 ≤ 1 := by
  exact ⟨runCalls_none_answers w os cs, runCalls_none_count w os cs⟩

/-- C4: the ipv4 flag is true exactly when creating the IPv4-family
TCP stream socket succeeds; that socket is never bound nor has an
option set on it (no trace event uses socket index 0), and on success
its drop immediately follows its creation in the trace. -/
theorem ipv4_check_spec (w : Bool) (os : Os) :
    (probe_in w os).1.ipv4 =
      os.socketOk 0 AddressFamily.INET SocketType.STREAM (some IpProto.TCP) ∧
    List.filter (fun e => Ev.usesFd e == some 0) (probe_in w os).2 = [] ∧
    List.IsInfix
      (Ev.socketCall 0 AddressFamily.INET SocketType.STREAM (some IpProto.TCP)
         (os.socketOk 0 AddressFamily.INET SocketType.STREAM (some IpProto.TCP)) ::
        (if os.socketOk 0 AddressFamily.INET SocketType.STREAM (some IpProto.TCP) then
          [Ev.closeFd 0] else []))
      (probe_in w os).2 := by
  refine ⟨by rw [probe_in_caps], ?_, ?_⟩
  · rw [probe_in_trace]
    cases h1 : os.socketOk 1 AddressFamily.INET6 SocketType.STREAM (some IpProto.TCP) <;>
    cases h2 : os.socketOk 2 AddressFamily.INET6 SocketType.STREAM (some IpProto.TCP) <;>
    cases h0 : os.socketOk 0 AddressFamily.INET SocketType.STREAM (some IpProto.TCP) <;>
      simp [trialSeg, h0, h1, h2, Ev.usesFd]
  · refine ⟨if w then [Ev.wsaStartup] else [],
      (trialSeg os 1 true true ++ trialSeg os 2 false false) ++
        (if w then [Ev.wsaCleanup] else []), ?_⟩
    rw [probe_in_trace]
    simp [List.append_assoc]

/-- C5: every underlying failure is absorbed as the corresponding flag
being false: a failed IPv4 socket creation forces ipv4 false, a failed
trial socket creation or bind forces its flag false, and on the
all-failing oracle probe and all three queries still return plain
boolean results, namely the all-false record. -/
theorem probing_infallible (w : Bool) (os : Os) :
    (os.socketOk 0 AddressFamily.INET SocketType.STREAM (some IpProto.TCP) = false →
      (probe_in w os).1.ipv4 = false) ∧
    (os.socketOk 1 AddressFamily.INET6 SocketType.STREAM (some IpProto.TCP) = false →
      (probe_in w os).1.ipv6 = false) ∧
    (os.bindOk 1 (mkBindAddr true) = false → (probe_in w os).1.ipv6 = false) ∧
    (os.socketOk 2 AddressFamily.INET6 SocketType.STREAM (some IpProto.TCP) = false →
      (probe_in w os).1.ipv4_mapped_ipv6 = false) ∧
    (os.bindOk 2 (mkBindAddr false) = false → (probe_in w os).1.ipv4_mapped_ipv6 = false) ∧
    probe w osAllFail none = (⟨false, false, false⟩, some ⟨false, false, false⟩) ∧
    ipv4 w osAllFail none = (false, some ⟨false, false, false⟩) ∧
    ipv6 w osAllFail none = (false, some ⟨false, false, false⟩) ∧
    ipv4_mapped_ipv6 w osAllFail none = (false, some ⟨false, false, false⟩) := by
  have hfail : (probe_in w osAllFail).1 = ⟨false, false, false⟩ := by
    rw [probe_in_caps]; simp [osAllFail]
  refine ⟨?_, ?_, ?_, ?_, ?_, ?_, ?_, ?_, ?_⟩
  · intro h; rw [probe_in_caps]; simp [h]
  · intro h; rw [probe_in_caps]; simp [h]
  · intro h; rw [probe_in_caps]; simp [h]
  · intro h; rw [probe_in_caps]; simp [h]
  · intro h; rw [probe_in_caps]; simp [h]
  · simp [probe, getOrInit, hfail]
  · simp [ipv4, probe, getOrInit, hfail]
  · simp [ipv6, probe, getOrInit, hfail]
  · simp [ipv4_mapped_ipv6, probe, getOrInit, hfail]

/-- Witness for C5, at the all-failing oracle on the unix path. -/
theorem probing_infallible_witness :
    osAllFail.socketOk 0 AddressFamily.INET SocketType.STREAM (some IpProto.TCP) = false ∧
    (probe_in false osAllFail).1.ipv4 = false :=
  ⟨rfl, (probing_infallible false osAllFail).1 rfl⟩

/-- C6: a failing IPV6_V6ONLY option call never aborts a trial: the
probe record is unchanged when only the option outcomes differ between
two oracles, and whenever a trial's socket creation succeeded, the
bind to the trial's address is still attempted and the trial's flag
equals the bind outcome alone. -/
theorem setopt_best_effort (w : Bool) (os os2 : Os) :
    (os2.socketOk = os.socketOk → os2.bindOk = os.bindOk →
      (probe_in w os2).1 = (probe_in w os).1) ∧
    (os.socketOk 1 AddressFamily.INET6 SocketType.STREAM (some IpProto.TCP) = true →
      Ev.bindCall 1 (mkBindAddr true) (os.bindOk 1 (mkBindAddr true)) ∈ (probe_in w os).2 ∧
      (probe_in w os).1.ipv6 = os.bindOk 1 (mkBindAddr true)) ∧
    (os.socketOk 2 AddressFamily.INET6 SocketType.STREAM (some IpProto.TCP) = true →
      Ev.bindCall 2 (mkBindAddr false) (os.bindOk 2 (mkBindAddr false)) ∈ (probe_in w os).2 ∧
      (probe_in w os).1.ipv4_mapped_ipv6 = os.bindOk 2 (mkBindAddr false)) := by
  refine ⟨?_, ?_, ?_⟩
  · intro ha hb
    rw [probe_in_caps, probe_in_caps, ha, hb]
  · intro h
    constructor
    · rw [probe_in_trace]
      simp [trialSeg, h]
    · rw [probe_in_caps]
      simp [h]
  · intro h
    constructor
    · rw [probe_in_trace]
      simp [trialSeg, h]
    · rw [probe_in_caps]
      simp [h]

/-- Witness for C6: the oracle failing every option call yields the
same record as the all-succeeding oracle, and with the option call
failing trial A's flag still follows its bind outcome. -/
theorem setopt_best_effort_witness :
    osAll.socketOk = osSetFail.socketOk ∧
    osAll.bindOk = osSetFail.bindOk ∧
    (probe_in false osAll).1 = (probe_in false osSetFail).1 ∧
    osSetFail.socketOk 1 AddressFamily.INET6 SocketType.STREAM (some IpProto.TCP) = true ∧
    (probe_in false osSetFail).1.ipv6 = osSetFail.bindOk 1 (mkBindAddr true) :=
  ⟨rfl, rfl, (setopt_best_effort false osSetFail osAll).1 rfl rfl, rfl,
    ((setopt_best_effort false osSetFail osSetFail).2.1 rfl).2⟩

/-- C7: the two IPv6 trials are independent: the ipv4_mapped_ipv6 flag
is the same for any two oracles whose trial-B socket-creation, option
and bind outcomes agree, whatever the IPv4-check and trial-A outcomes;
symmetrically the ipv6 flag depends only on trial A's outcomes. -/
theorem trials_independent (w : Bool) (os os2 : Os) :
    ((os2.socketOk 2 AddressFamily.INET6 SocketType.STREAM (some IpProto.TCP) =
        os.socketOk 2 AddressFamily.INET6 SocketType.STREAM (some IpProto.TCP) ∧
      os2.setOk 2 false = os.setOk 2 false ∧
      os2.bindOk 2 (mkBindAddr false) = os.bindOk 2 (mkBindAddr false)) →
      (probe_in w os2).1.ipv4_mapped_ipv6 = (probe_in w os).1.ipv4_mapped_ipv6) ∧
    ((os2.socketOk 1 AddressFamily.INET6 SocketType.STREAM (some IpProto.TCP) =
        os.socketOk 1 AddressFamily.INET6 SocketType.STREAM (some IpProto.TCP) ∧
      os2.setOk 1 true = os.setOk 1 true ∧
      os2.bindOk 1 (mkBindAddr true) = os.bindOk 1 (mkBindAddr true)) →
      (probe_in w os2).1.ipv6 = (probe_in w os).1.ipv6) := by
  constructor
  · rintro ⟨hs, -, hb⟩
    rw [probe_in_caps, probe_in_caps]
    simp [hs, hb]
  · rintro ⟨hs, -, hb⟩
    rw [probe_in_caps, probe_in_caps]
    simp [hs, hb]

/-- Witness for C7: failing trial A's socket creation leaves the
mapped flag as on the all-succeeding oracle, and failing trial B's
bind leaves the ipv6 flag as on the all-succeeding oracle. -/
theorem trials_independent_witness :
    osTrialAFail.socketOk 2 AddressFamily.INET6 SocketType.STREAM (some IpProto.TCP) =
      osAll.socketOk 2 AddressFamily.INET6 SocketType.STREAM (some IpProto.TCP) ∧
    (probe_in false osTrialAFail).1.ipv4_mapped_ipv6 =
      (probe_in false osAll).1.ipv4_mapped_ipv6 ∧
    osTrialBBindFail.bindOk 1 (mkBindAddr true) = osAll.bindOk 1 (mkBindAddr true) ∧
    (probe_in false osTrialBBindFail).1.ipv6 = (probe_in false osAll).1.ipv6 :=
  ⟨rfl, (trials_independent false osAll osTrialAFail).1 ⟨rfl, rfl, rfl⟩,
    rfl, (trials_independent false osAll osTrialBBindFail).2 ⟨rfl, rfl, rfl⟩⟩

/-- C8: initialization is effectively exactly-once over any
interleaving of caller steps (modelled as an arbitrary sequence of
atomic get-or-init calls, which is the OnceLock contract): once a
record is published every caller reads exactly it, the cell never
changes and the initializer never reruns; from the fresh state the
cell only ever holds the probing procedure's record and all callers
observe that same record. -/
theorem concurrent_once_consistent (w : Bool) (os : Os) (cs : List Call) (p : Probe) :
    runCalls w os cs (some p) = (List.replicate cs.length p, some p, 0) ∧
    ((runCalls w os cs none).2.1 = none ∨
      (runCalls w os cs none).2.1 = some ((probe_in w os).1)) ∧
    (runCalls w os cs none).1 = List.replicate cs.length ((probe_in w os).1) :=
  ⟨runCalls_some w os p cs, runCalls_none_cell w os cs, runCalls_none_answers w os cs⟩

/-- C9: on windows one probe execution brackets the whole sequence
with exactly one startup call first and exactly one cleanup call last,
on every path: the windows trace is the startup call, then exactly the
non-windows trace, then the cleanup call; the record is unaffected;
and the startup and cleanup events occur once on windows and never
otherwise. -/
theorem wsa_bracketing (os : Os) :
    (probe_in true os).2 = Ev.wsaStartup :: ((probe_in false os).2 ++ [Ev.wsaCleanup]) ∧
    (probe_in true os).1 = (probe_in false os).1 ∧
    List.countP (fun e => Ev.isStartup e) (probe_in true os).2 = 1 ∧
    List.countP (fun e => Ev.isCleanup e) (probe_in true os).2 = 1 ∧
    List.countP (fun e => Ev.isStartup e) (probe_in false os).2 = 0 ∧
    List.countP (fun e => Ev.isCleanup e) (probe_in false os).2 = 0 := by
  have hcs : ∀ w, List.countP (fun e => Ev.isStartup e)
      ((probe_in w os).2) = (if w then 1 else 0) := by
    intro w
    cases h1 : os.socketOk 1 AddressFamily.INET6 SocketType.STREAM (some IpProto.TCP) <;>
    cases h2 : os.socketOk 2 AddressFamily.INET6 SocketType.STREAM (some IpProto.TCP) <;>
    cases h0 : os.socketOk 0 AddressFamily.INET SocketType.STREAM (some IpProto.TCP) <;>
    cases w <;>
      simp [probe_in_trace, trialSeg, h0, h1, h2, Ev.isStartup,
        List.countP_append, List.countP_cons]
  have hcc : ∀ w, List.countP (fun e => Ev.isCleanup e)
      ((probe_in w os).2) = (if w then 1 else 0) := by
    intro w
    cases h1 : os.socketOk 1 AddressFamily.INET6 SocketType.STREAM (some IpProto.TCP) <;>
    cases h2 : os.socketOk 2 AddressFamily.INET6 SocketType.STREAM (some IpProto.TCP) <;>
    cases h0 : os.socketOk 0 AddressFamily.INET SocketType.STREAM (some IpProto.TCP) <;>
    cases w <;>
      simp [probe_in_trace, trialSeg, h0, h1, h2, Ev.isCleanup,
        List.countP_append, List.countP_cons]
  refine ⟨?_, ?_, by simpa using hcs true, by simpa using hcc true,
    by simpa using hcs false, by simpa using hcc false⟩
  · rw [probe_in_trace, probe_in_trace]
    simp
  · rw [probe_in_caps, probe_in_caps]

/-- C10: the Probe accessor methods are pure projections returning
exactly the stored fields, and two Probe records are equal exactly
when all three fields agree pairwise. -/
theorem probe_accessors_pure :
    (∀ p : Probe, ProbeImpl.ipv4 p = p.ipv4 ∧ ProbeImpl.ipv6 p = p.ipv6 ∧
      ProbeImpl.ipv4_mapped_ipv6 p = p.ipv4_mapped_ipv6) ∧
    (∀ p q : Probe, p = q ↔
      (p.ipv4 = q.ipv4 ∧ p.ipv6 = q.ipv6 ∧ p.ipv4_mapped_ipv6 = q.ipv4_mapped_ipv6)) := by
  constructor
  · intro p
    exact ⟨rfl, rfl, rfl⟩
  · intro p q
    constructor
    · rintro rfl
      exact ⟨rfl, rfl, rfl⟩
    · rintro ⟨h1, h2, h3⟩
      cases p
      cases q
      simp_all

/-- Witness for C10, at a concrete record. -/
theorem probe_accessors_pure_witness :
    ProbeImpl.ipv4 ⟨true, false, true⟩ = true ∧
    ((⟨true, false, true⟩ : Probe) = ⟨true, false, true⟩ ↔
      ((true : Bool) = true ∧ (false : Bool) = false ∧ (true : Bool) = true)) :=
  ⟨(probe_accessors_pure.1 ⟨true, false, true⟩).1.trans rfl,
    probe_accessors_pure.2 ⟨true, false, true⟩ ⟨true, false, true⟩⟩

end Iprobe
